import Mathlib

/-!
Shallow embedding of the multitek_diafonbox integration
(custom_components/multitek_diafonbox: api.py, coordinator.py, lock.py,
button.py, const.py), together with theorems checking the specification
claims against it.

Conventions of the embedding:
* Python dict fields accessed via `.get(key)` are modelled as `Option String`
  fields (absent key = `none`).
* Python exceptions are modelled with `Except`: vendor-API failures with
  `ApiErr` (MultitekAPIError / MultitekAuthError), Python-level errors such
  as `ValueError` from `int(...)` or `NameError` with `PyErr`.
* The awaited results of HTTP requests are passed to each operation as
  explicit arguments, so an operation is a pure function of its inputs and
  the responses the vendor would return.
-/

/-- Python-level exceptions that the embedded code can raise. -/
inductive PyErr where
  | valueError
  | nameError
deriving DecidableEq, Repr

/-- Error kinds raised by the API layer: `auth` is MultitekAuthError
(raised on HTTP 401), `api` is MultitekAPIError with its message. -/
inductive ApiErr where
  | auth (msg : String)
  | api (msg : String)
deriving DecidableEq, Repr

/-- Call-record dict as used by the integration; each field is an optional
string, mirroring `call.get(...)` on the vendor JSON object. -/
structure CallRecord where
  call_id : Option String
  call_from : Option String
  call_to : Option String
  call_state : Option String
  date : Option String
  location_id : Option String
  path : Option String
deriving DecidableEq, Repr

/-- Account dict: only the fields the embedded operations read. -/
structure Account where
  sip : Option String
  email : Option String
deriving DecidableEq, Repr

/-- Location dict: only the fields the coordinator snapshot stores. -/
structure Location where
  location_id : Option String
  location_name : Option String
deriving DecidableEq, Repr

/-- Coordinator cached snapshot, as built by `_async_update_data`. -/
structure Snapshot where
  locations : List Location
  call_records : List CallRecord
  account : Account
deriving DecidableEq, Repr

/-- Value returned by `_request`: decoded JSON (a bare string, an int, a
call-info dict) or the raw response text (`str`). -/
inductive RespVal where
  | str (s : String)
  | int (n : Int)
  | dict (d : CallRecord)
  | other
deriving DecidableEq, Repr

/-- Success test used by `open_door` / `open_door_with_call`:
`result == "1" or result == 1` (Python, where a string never equals an int). -/
def isSuccessMarker (v : RespVal) : Bool :=
  v == RespVal.str "1" || v == RespVal.int 1

/-- Python truthiness of an optional string: `None` and `""` are falsy. -/
def strTruthy : Option String → Bool
  | none => false
  | some s => !(s == "")

/-- Accumulates the value of a decimal digit string; `none` if a non-digit
appears. -/
def digitsVal : List Char → Nat → Option Nat
  | [], acc => some acc
  | c :: rest, acc =>
      if c.isDigit then digitsVal rest (acc * 10 + (c.toNat - 48)) else none

/-- Strips leading and trailing whitespace from a character list. -/
def trimChars (cs : List Char) : List Char :=
  ((cs.dropWhile Char.isWhitespace).reverse.dropWhile Char.isWhitespace).reverse

/-- Model of Python `int(s)` on a string: optional surrounding whitespace,
an optional sign, then a non-empty run of decimal digits; anything else
raises `ValueError` (modelled as `none`). -/
def pyIntOfString (s : String) : Option Int :=
  match trimChars s.data with
  | [] => none
  | c :: rest =>
      if c == '-' then
        match rest with
        | [] => none
        | _ => (digitsVal rest 0).map (fun n => -(n : Int))
      else if c == '+' then
        match rest with
        | [] => none
        | _ => (digitsVal rest 0).map (fun n => (n : Int))
      else (digitsVal (c :: rest) 0).map (fun n => (n : Int))

/-- Embedding of `int(call.get("date", 0))`: an absent date is the int `0`,
a present date string is coerced with Python `int`, raising `ValueError`
when it does not parse. -/
def dateKey (c : CallRecord) : Except PyErr Int :=
  match c.date with
  | none => Except.ok 0
  | some s =>
      match pyIntOfString s with
      | some n => Except.ok n
      | none => Except.error PyErr.valueError

/-- True when `dateKey` succeeds on the record. -/
def dateOk (c : CallRecord) : Bool :=
  match dateKey c with
  | Except.ok _ => true
  | Except.error _ => false

/-- Total date value: the parsed date, `0` on error (used only to state
specifications under the hypothesis that every date parses). -/
def dateD (c : CallRecord) : Int :=
  match dateKey c with
  | Except.ok n => n
  | Except.error _ => 0

/-- Containment of one character sequence in another (Python's `in` on
strings). -/
def containsSeq (needle : List Char) : List Char → Bool
  | [] => needle.isEmpty
  | c :: t => needle.isPrefixOf (c :: t) || containsSeq needle t

/-- Outcome of one HTTP POST made by `_request`: a response with a status
code, a Content-Type header, the value `response.json()` would decode
(`none` when the body is malformed JSON and `response.json()` raises
json.JSONDecodeError) and the raw text body; or expiry of the
`ClientTimeout(total=30)` (aiohttp raises asyncio.TimeoutError); or a
network-level failure reported as aiohttp.ClientError. -/
inductive HttpResult where
  | response (status : Nat) (contentType : String) (jsonBody : Option RespVal)
      (textBody : String)
  | timeout
  | clientError (msg : String)
deriving DecidableEq, Repr

/-- Exception kinds that can propagate out of `_request`: the two Multitek
kinds it raises itself or wraps a ClientError into, plus
asyncio.TimeoutError and json.JSONDecodeError, which are not
aiohttp.ClientError subclasses and therefore pass its
`except aiohttp.ClientError` handler unwrapped. -/
inductive ReqExc where
  | raised (e : ApiErr)
  | asyncioTimeout
  | jsonDecode
deriving DecidableEq, Repr

/-- True when the escaping exception is one of the integration's two API
error kinds (MultitekAuthError / MultitekAPIError). -/
def isApiErrKind : ReqExc → Bool
  | ReqExc.raised _ => true
  | _ => false

/-- Embedding of `MultitekAPI._request` (api.py lines 53-94): HTTP 401
raises MultitekAuthError, any other non-200 raises MultitekAPIError
carrying the status, a JSON Content-Type yields the decoded body and
anything else the raw text, and aiohttp.ClientError is wrapped into
MultitekAPIError; a total-timeout expiry and a malformed JSON body under a
JSON Content-Type escape as asyncio.TimeoutError and json.JSONDecodeError
respectively, uncaught. -/
def request : HttpResult → Except ReqExc RespVal
  | HttpResult.timeout => Except.error ReqExc.asyncioTimeout
  | HttpResult.clientError msg =>
      Except.error (ReqExc.raised (ApiErr.api ("API request failed: " ++ msg)))
  | HttpResult.response status ct j t =>
      if status = 401 then
        Except.error (ReqExc.raised (ApiErr.auth "Authentication failed"))
      else if status ≠ 200 then
        Except.error (ReqExc.raised
          (ApiErr.api ("API request failed with status " ++ toString status)))
      else if containsSeq ("application/json".data) ct.data then
        match j with
        | some v => Except.ok v
        | none => Except.error ReqExc.jsonDecode
      else Except.ok (RespVal.str t)

/-- Names imported into api.py from const.py (api.py lines 10-22), the
module-level names `ask_current_call` can resolve an endpoint constant
against. -/
def apiConstImports : List String :=
  ["API_BASE_URL", "API_PASSWORD", "API_USERNAME", "ENDPOINT_ADD_CALL",
   "ENDPOINT_CONTROL_CURRENT_CALL", "ENDPOINT_GET_ACCOUNT",
   "ENDPOINT_GET_CALLS", "ENDPOINT_GET_LOCATIONS", "ENDPOINT_LOGIN",
   "ENDPOINT_RESUME_APP", "ENDPOINT_SET_CALL_DURATION"]

/-- Embedding of `MultitekAPI.ask_current_call` (api.py lines 162-181).
Its body references `ENDPOINT_ASK_CURRENT_CALL`; if that name is not among
the module's imports, evaluating the body raises NameError, which the
surrounding `except Exception` turns into `None`. Otherwise the request
result is inspected: a dict whose `call_id` is truthy and not `"-1"` is
returned, anything else (including any raised error) gives `None`. -/
def ask_current_call (req : Except ApiErr RespVal) : Option CallRecord :=
  if "ENDPOINT_ASK_CURRENT_CALL" ∈ apiConstImports then
    match req with
    | Except.error _ => none
    | Except.ok (RespVal.dict d) =>
        let cid := d.call_id.getD "-1"
        if cid != "-1" && cid != "" then some d else none
    | Except.ok _ => none
  else none

/-- Observable outcome of one `open_door` run: whether the addCall request
was submitted, whether the setCallDuration request was submitted, and the
returned value or raised error. -/
structure OpenDoorOutcome where
  step1Submitted : Bool
  step2Submitted : Bool
  result : Except ApiErr Bool
deriving Repr

/-- Embedding of `MultitekAPI.open_door` (api.py lines 183-275).
Arguments: the cached `_user_sip`, the result `get_account` would return if
called, and the responses of the addCall and setCallDuration requests.
A falsy cached SIP triggers the account fetch; a still-falsy SIP raises
MultitekAPIError "User SIP number not available". Step 1 submits addCall;
only if its response is the success marker is setCallDuration submitted;
the run returns True only when both responses are the marker. A raised
MultitekAPIError is re-raised by the `except MultitekAPIError: raise`
handler. -/
def open_door (cachedSip : Option String) (accountFetch : Except ApiErr Account)
    (addCallResp : Except ApiErr RespVal) (setDurResp : Except ApiErr RespVal) :
    OpenDoorOutcome :=
  let sipStep : Except ApiErr (Option String) :=
    if strTruthy cachedSip then Except.ok cachedSip
    else accountFetch.map (fun a => a.sip)
  match sipStep with
  | Except.error e => ⟨false, false, Except.error e⟩
  | Except.ok sip =>
      if strTruthy sip then
        match addCallResp with
        | Except.error e => ⟨true, false, Except.error e⟩
        | Except.ok v =>
            if isSuccessMarker v then
              match setDurResp with
              | Except.error e => ⟨true, true, Except.error e⟩
              | Except.ok w => ⟨true, true, Except.ok (isSuccessMarker w)⟩
            else ⟨true, false, Except.ok false⟩
      else ⟨false, false, Except.error (ApiErr.api "User SIP number not available")⟩

/-- Embedding of `MultitekAPI.open_door_with_call` (api.py lines 277-305):
returns whether the controlCurrentCall response is the success marker; a
raised MultitekAPIError propagates. -/
def open_door_with_call (resp : Except ApiErr RespVal) : Except ApiErr Bool :=
  resp.map isSuccessMarker

/-- Payload of the `multitek_diafonbox_doorbell_pressed` event fired by
`_detect_doorbell_events` (coordinator.py lines 180-189). -/
structure EventData where
  call_id : Option String
  call_from : Option String
  call_to : Option String
  location_id : Option String
  timestamp : Option String
  snapshot_path : Option String
deriving DecidableEq, Repr

/-- Event payload built from a call record. -/
def mkEventData (c : CallRecord) : EventData :=
  ⟨c.call_id, c.call_from, c.call_to, c.location_id, c.date, c.path⟩

/-- Embedding of `_detect_doorbell_events` (coordinator.py lines 162-195):
scans the record list in order; a record whose state is not "Missed" or
whose id is already in the seen set is skipped; otherwise its id is added
to the seen set and a doorbell event is fired. Returns the new seen set
and the fired events in firing order. -/
def detectDoorbellEvents : List CallRecord → Finset (Option String) →
    Finset (Option String) × List EventData
  | [], seen => (seen, [])
  | c :: rest, seen =>
      if c.call_state = some "Missed" then
        if c.call_id ∈ seen then detectDoorbellEvents rest seen
        else
          let out := detectDoorbellEvents rest (insert c.call_id seen)
          (out.1, mkEventData c :: out.2)
      else detectDoorbellEvents rest seen

/-- Seen-set state threaded through a sequence of refreshes of one
coordinator instance, each refresh delivering one call-record list. -/
def runRefreshes : List (List CallRecord) → Finset (Option String) →
    Finset (Option String) × List EventData
  | [], seen => (seen, [])
  | r :: rest, seen =>
      let step := detectDoorbellEvents r seen
      let out := runRefreshes rest step.1
      (out.1, step.2 ++ out.2)

/-- Coordinator state relevant to a refresh: the cached snapshot (`self.data`,
`None` before the first success) and the seen call-id set
(`self._last_call_ids`). -/
structure CoordState where
  data : Option Snapshot
  seen : Finset (Option String)
deriving DecidableEq

/-- Results the three fetches of one refresh would return. -/
structure FetchResults where
  locations : Except ApiErr (List Location)
  call_records : Except ApiErr (List CallRecord)
  account : Except ApiErr Account

/-- True when the fetch raised a MultitekAPIError. -/
def apiFailed {α : Type} : Except ApiErr α → Bool
  | Except.error _ => true
  | Except.ok _ => false

/-- Embedding of one refresh: `_async_update_data` (coordinator.py lines
126-160) performs the three fetches in order (doorbell detection runs
between the call-record and account fetches), returns the fresh snapshot
when all three succeed, and re-raises any MultitekAPIError as UpdateFailed.
Modelled from the spec: the host DataUpdateCoordinator (not part of this
repository) reports the refresh as failed and keeps `self.data` unchanged
when UpdateFailed is raised, and replaces it with the returned snapshot on
success. The returned Bool is the refresh success flag. -/
def refreshStep (st : CoordState) (f : FetchResults) : CoordState × Bool :=
  match f.locations with
  | Except.error _ => (st, false)
  | Except.ok locs =>
      match f.call_records with
      | Except.error _ => (st, false)
      | Except.ok calls =>
          let seen2 := (detectDoorbellEvents calls st.seen).1
          match f.account with
          | Except.error _ => ({ st with seen := seen2 }, false)
          | Except.ok acc =>
              (⟨some ⟨locs, calls, acc⟩, seen2⟩, true)

/-- Call records of an optional snapshot (`self.data` falsy means no
records to scan). -/
def recordsOf : Option Snapshot → List CallRecord
  | none => []
  | some snap => snap.call_records

/-- Python test `call_to and call.get("call_to") != call_to` negated: the
record is kept when the filter is falsy or the record's call_to equals it. -/
def callToMatches (filter : Option String) (c : CallRecord) : Bool :=
  if strTruthy filter then c.call_to == filter else true

/-- Loop body of `get_recent_calls`: keeps, in order, records whose coerced
date is not below the cutoff and which pass the call_to filter; the date
coercion can raise `ValueError`. -/
def recentFilter : List CallRecord → Int → Option String →
    Except PyErr (List CallRecord)
  | [], _, _ => Except.ok []
  | c :: rest, cutoff, ct =>
      match dateKey c with
      | Except.error e => Except.error e
      | Except.ok d =>
          if d < cutoff then recentFilter rest cutoff ct
          else if callToMatches ct c then
            (recentFilter rest cutoff ct).map (fun l => c :: l)
          else recentFilter rest cutoff ct

/-- Embedding of `get_recent_calls` (coordinator.py lines 210-235): empty
cache gives the empty list, otherwise records dated within the last
`minutes` minutes before `now_ms`, optionally restricted by `call_to`. -/
def get_recent_calls (data : Option Snapshot) (now_ms : Int)
    (call_to : Option String) (minutes : Int) : Except PyErr (List CallRecord) :=
  match data with
  | none => Except.ok []
  | some snap =>
      recentFilter snap.call_records (now_ms - minutes * 60 * 1000) call_to

/-- Loop body of `get_today_call_count`: counts records whose coerced date
is at least the midnight cutoff; the date coercion can raise `ValueError`. -/
def countFrom : List CallRecord → Int → Except PyErr Nat
  | [], _ => Except.ok 0
  | c :: rest, m =>
      match dateKey c with
      | Except.error e => Except.error e
      | Except.ok d =>
          (countFrom rest m).map (fun n => if d ≥ m then n + 1 else n)

/-- Embedding of `get_today_call_count` (coordinator.py lines 237-255):
counts cached records dated at or after local midnight (`midnight_ms`,
the value `datetime.now().replace(hour=0, ...).timestamp() * 1000`
would produce); no filtering on call state. -/
def get_today_call_count (data : Option Snapshot) (midnight_ms : Int) :
    Except PyErr Nat :=
  match data with
  | none => Except.ok 0
  | some snap => countFrom snap.call_records midnight_ms

/-- API operations an entity action can invoke, in invocation order. -/
inductive ApiCall where
  | askCurrentCall
  | openDoorWithCall (call_id : Option String)
  | openDoor
deriving DecidableEq, Repr

/-- Observable trace of one unlock/press action: the API calls made, and
the `method` field of the door-opened event if one was fired. -/
structure ActionTrace where
  calls : List ApiCall
  eventMethod : Option String
deriving DecidableEq, Repr

/-- Shared tail of both actions: submit the two-step `open_door`; fire the
event with method "addCall" on True, fire nothing on False or on a raised
error (caught by the surrounding `except Exception`). -/
def afterOpenDoor (pre : List ApiCall) (odResult : Except ApiErr Bool) :
    ActionTrace :=
  match odResult with
  | Except.error _ => ⟨pre ++ [ApiCall.openDoor], none⟩
  | Except.ok true => ⟨pre ++ [ApiCall.openDoor], some "addCall"⟩
  | Except.ok false => ⟨pre ++ [ApiCall.openDoor], none⟩

/-- Embedding of `MultitekDoorButton.async_press` (button.py lines 93-141):
first `ask_current_call`; a (necessarily non-empty, hence truthy) returned
dict leads to `open_door_with_call` with its call_id — success fires the
event with method "controlCurrentCall", failure falls through to
`open_door`; no active call goes to `open_door` directly. Arguments are
the results the successive API calls would return. -/
def async_press (active : Option CallRecord) (odwcResult : Except ApiErr Bool)
    (odResult : Except ApiErr Bool) : ActionTrace :=
  match active with
  | some d =>
      match odwcResult with
      | Except.error _ => ⟨[ApiCall.askCurrentCall,
          ApiCall.openDoorWithCall d.call_id], none⟩
      | Except.ok true => ⟨[ApiCall.askCurrentCall,
          ApiCall.openDoorWithCall d.call_id], some "controlCurrentCall"⟩
      | Except.ok false =>
          afterOpenDoor [ApiCall.askCurrentCall,
            ApiCall.openDoorWithCall d.call_id] odResult
  | none => afterOpenDoor [ApiCall.askCurrentCall] odResult

/-- Scan loop of `async_unlock` (lock.py lines 128-134): first record whose
location matches and whose coerced date is after the cutoff; the date
coercion (only reached when the location matches) can raise `ValueError`.
Returns `some call_id` when the loop broke on a record. -/
def findRecentCallId : List CallRecord → String → Int →
    Except PyErr (Option (Option String))
  | [], _, _ => Except.ok none
  | c :: rest, loc, cutoff =>
      if c.location_id == some loc then
        match dateKey c with
        | Except.error e => Except.error e
        | Except.ok d =>
            if d > cutoff then Except.ok (some c.call_id)
            else findRecentCallId rest loc cutoff
      else findRecentCallId rest loc cutoff

/-- Embedding of `MultitekLock.async_unlock` (lock.py lines 116-188): scans
the cached call records for a call at this location within the last five
minutes; a truthy found id leads to `open_door_with_call` — success fires
the event with method "controlCurrentCall", failure falls through to
`open_door`; otherwise `open_door` directly. Any raised exception
(including `ValueError` from the scan) is swallowed by the surrounding
`except Exception`. It never invokes `ask_current_call`. -/
def async_unlock (records : List CallRecord) (loc : String) (now_ms : Int)
    (odwcResult : Except ApiErr Bool) (odResult : Except ApiErr Bool) :
    ActionTrace :=
  match findRecentCallId records loc (now_ms - 5 * 60 * 1000) with
  | Except.error _ => ⟨[], none⟩
  | Except.ok r =>
      let recent : Option String := r.join
      if strTruthy recent then
        match odwcResult with
        | Except.error _ => ⟨[ApiCall.openDoorWithCall recent], none⟩
        | Except.ok true =>
            ⟨[ApiCall.openDoorWithCall recent], some "controlCurrentCall"⟩
        | Except.ok false =>
            afterOpenDoor [ApiCall.openDoorWithCall recent] odResult
      else afterOpenDoor [] odResult

/-- Hypothesis under which `open_door` resolves a user SIP: the cached SIP
is truthy, or the account fetch succeeds with a truthy SIP. -/
def sipResolved (cs : Option String) (af : Except ApiErr Account) : Prop :=
  strTruthy cs = true ∨ ∃ acc, af = Except.ok acc ∧ strTruthy acc.sip = true

/-- Behaviour of the two protocol steps of `open_door` once a SIP is
resolved, as a function of the two responses (used to factor proofs). -/
def openDoorSteps (addCallResp setDurResp : Except ApiErr RespVal) :
    OpenDoorOutcome :=
  match addCallResp with
  | Except.error e => ⟨true, false, Except.error e⟩
  | Except.ok v =>
      if isSuccessMarker v then
        match setDurResp with
        | Except.error e => ⟨true, true, Except.error e⟩
        | Except.ok w => ⟨true, true, Except.ok (isSuccessMarker w)⟩
      else ⟨true, false, Except.ok false⟩

/-- Call_to restriction of the specification: no filter given means every
record passes; a given filter value must equal the record's call_to. -/
def specCallTo (ct : Option String) (c : CallRecord) : Bool :=
  match ct with
  | none => true
  | some f => c.call_to == some f

/-- Predicate of the specification for `get_recent_calls`: the record's
date is within the window and, when a call_to value is given, the record's
call_to equals it. -/
def specRecentPred (ct : Option String) (cutoff : Int) (c : CallRecord) : Bool :=
  decide (cutoff ≤ dateD c) && specCallTo ct c

/-- Overwrites the call_state of a record (used to state that the today
count ignores call states). -/
def setCallState (st : Option String) (c : CallRecord) : CallRecord :=
  { c with call_state := st }

/-- Overwrites the call_state of every cached record. -/
def scrubStates (st : Option String) : Option Snapshot → Option Snapshot
  | none => none
  | some snap =>
      some { snap with call_records := snap.call_records.map (setCallState st) }

/-! Theorems. -/

/-- C7 counterexample: a timed-out request escapes `_request` as
asyncio.TimeoutError and a malformed JSON body under an application/json
Content-Type escapes as json.JSONDecodeError, neither of which is one of
the two API error kinds — so the claim that no other exception kind
escapes the request layer is false. -/
theorem request_escape_counterexample :
    request HttpResult.timeout = Except.error ReqExc.asyncioTimeout ∧
    isApiErrKind ReqExc.asyncioTimeout = false ∧
    request (HttpResult.response 200 "application/json" none "x") =
      Except.error ReqExc.jsonDecode ∧
    isApiErrKind ReqExc.jsonDecode = false := by
  refine ⟨rfl, rfl, ?_, rfl⟩
  rfl

/-- C7 (amended): every HTTP 401 response raises the authentication-error
kind, any other non-200 response raises the generic API-error kind
carrying the status code, and every network-level failure reported as an
aiohttp.ClientError is wrapped into the generic API-error kind; a request
timeout and a malformed JSON body, however, escape the request layer
unwrapped, as asyncio.TimeoutError and json.JSONDecodeError. -/
theorem request_error_mapping :
    (∀ ct j t, request (HttpResult.response 401 ct j t) =
      Except.error (ReqExc.raised (ApiErr.auth "Authentication failed"))) ∧
    (∀ s ct j t, s ≠ 401 → s ≠ 200 →
      request (HttpResult.response s ct j t) =
        Except.error (ReqExc.raised
          (ApiErr.api ("API request failed with status " ++ toString s)))) ∧
    (∀ m, request (HttpResult.clientError m) =
      Except.error (ReqExc.raised (ApiErr.api ("API request failed: " ++ m)))) ∧
    request HttpResult.timeout = Except.error ReqExc.asyncioTimeout ∧
    (∀ ct t, containsSeq ("application/json".data) ct.data = true →
      request (HttpResult.response 200 ct none t) =
        Except.error ReqExc.jsonDecode) := by
  refine ⟨fun ct j t => rfl, fun s ct j t h1 h2 => ?_, fun m => rfl, rfl,
    fun ct t hct => ?_⟩
  · simp [request, h1, h2]
  · simp [request, hct]

/-- Witness for C7 at status 500 and at a malformed JSON 200-response. -/
theorem request_error_mapping_witness :
    (500 : Nat) ≠ 401 ∧ (500 : Nat) ≠ 200 ∧
    request (HttpResult.response 500 "" none "") =
      Except.error (ReqExc.raised
        (ApiErr.api ("API request failed with status " ++
          toString (500 : Nat)))) ∧
    containsSeq ("application/json".data) ("application/json".data) = true ∧
    request (HttpResult.response 200 "application/json" none "y") =
      Except.error ReqExc.jsonDecode :=
  ⟨by decide, by decide,
    request_error_mapping.2.1 500 "" none "" (by decide) (by decide),
    by decide,
    request_error_mapping.2.2.2.2 "application/json" "y" (by decide)⟩

/-- C9: ask_current_call always returns None, because its body references
the unimported name ENDPOINT_ASK_CURRENT_CALL and the resulting NameError
is converted to None by the catch-all handler; consequently the button
press never reaches its open_door_with_call branch and always performs
ask_current_call followed by the two-step open_door. -/
theorem ask_current_call_always_none :
    (∀ r, ask_current_call r = none) ∧
    (∀ r odwc od, (async_press (ask_current_call r) odwc od).calls =
      [ApiCall.askCurrentCall, ApiCall.openDoor]) := by
  have h : ∀ r : Except ApiErr RespVal, ask_current_call r = none := by
    intro r
    simp [ask_current_call, apiConstImports]
  refine ⟨h, fun r odwc od => ?_⟩
  rw [h r]
  cases od with
  | error e => rfl
  | ok b => cases b with
    | false => rfl
    | true => rfl

/-- Once a SIP is resolved, `open_door` behaves as the two-step protocol
`openDoorSteps` on the two responses. -/
theorem open_door_eq_of_resolved (cs : Option String)
    (af : Except ApiErr Account) (a b : Except ApiErr RespVal)
    (h : sipResolved cs af) :
    open_door cs af a b = openDoorSteps a b := by
  rcases h with h | ⟨acc, haf, hacc⟩
  · simp [open_door, openDoorSteps, h]
  · subst haf
    by_cases hcs : strTruthy cs
    · simp [open_door, openDoorSteps, hcs]
    · simp [open_door, openDoorSteps, hcs, Except.map, hacc]

/-- C1 counterexample: a run of `open_door` with no cached SIP and an
account carrying no SIP submits neither step (it raises before addCall),
so the claim that every run submits the addCall step is false. -/
theorem open_door_claim_counterexample :
    (open_door none (Except.ok ⟨none, none⟩) (Except.ok (RespVal.str "1"))
        (Except.ok (RespVal.str "1"))).step1Submitted = false ∧
    (open_door none (Except.ok ⟨none, none⟩) (Except.ok (RespVal.str "1"))
        (Except.ok (RespVal.str "1"))).result =
      Except.error (ApiErr.api "User SIP number not available") := by
  constructor <;> rfl

/-- C1 (amended): in every run of `open_door` that resolves a user SIP,
the addCall step is submitted; the setCallDuration step is submitted
exactly when the addCall response is the success marker; the run returns
success iff both responses are the success marker; and a marker addCall
response followed by a non-marker setCallDuration response returns
failure. -/
theorem open_door_protocol (cs : Option String) (af : Except ApiErr Account)
    (a b : Except ApiErr RespVal) (h : sipResolved cs af) :
    (open_door cs af a b).step1Submitted = true ∧
    ((open_door cs af a b).step2Submitted = true ↔
      ∃ v, a = Except.ok v ∧ isSuccessMarker v = true) ∧
    ((open_door cs af a b).result = Except.ok true ↔
      ∃ v w, a = Except.ok v ∧ b = Except.ok w ∧
        isSuccessMarker v = true ∧ isSuccessMarker w = true) ∧
    (∀ v w, a = Except.ok v → b = Except.ok w → isSuccessMarker v = true →
      isSuccessMarker w = false →
      (open_door cs af a b).result = Except.ok false) := by
  rw [open_door_eq_of_resolved cs af a b h]
  cases a with
  | error e => simp [openDoorSteps]
  | ok v =>
      by_cases hv : isSuccessMarker v
      · cases b with
        | error e => simp [openDoorSteps, hv]
        | ok w => simp [openDoorSteps, hv]
      · simp [openDoorSteps, hv]

/-- Witness for C1 at a resolved SIP, with addCall answering "1" and
setCallDuration answering "0": the overall result is failure. -/
theorem open_door_protocol_witness :
    sipResolved (some "100") (Except.ok ⟨none, none⟩) ∧
    (open_door (some "100") (Except.ok ⟨none, none⟩)
        (Except.ok (RespVal.str "1"))
        (Except.ok (RespVal.str "0"))).result = Except.ok false :=
  ⟨Or.inl (by decide),
    (open_door_protocol (some "100") (Except.ok ⟨none, none⟩)
        (Except.ok (RespVal.str "1")) (Except.ok (RespVal.str "0"))
        (Or.inl (by decide))).2.2.2 (RespVal.str "1") (RespVal.str "0")
      rfl rfl (by decide) (by decide)⟩

/-- C10: when the cached SIP is absent and the freshly fetched account has
no sip field, `open_door` raises MultitekAPIError "User SIP number not
available" without submitting any step; whereas any vendor response value
other than the success marker makes it return False without raising. -/
theorem open_door_sip_error_vs_failure (acc : Account)
    (a b : Except ApiErr RespVal) (cs : Option String)
    (af : Except ApiErr Account) (v w : RespVal)
    (hacc : acc.sip = none) (hres : sipResolved cs af) :
    open_door none (Except.ok acc) a b =
      ⟨false, false, Except.error (ApiErr.api "User SIP number not available")⟩ ∧
    (isSuccessMarker v = false →
      open_door cs af (Except.ok v) b = ⟨true, false, Except.ok false⟩) ∧
    (isSuccessMarker v = true → isSuccessMarker w = false →
      open_door cs af (Except.ok v) (Except.ok w) =
        ⟨true, true, Except.ok false⟩) := by
  refine ⟨?_, fun hv => ?_, fun hv hw => ?_⟩
  · simp [open_door, Except.map, hacc, strTruthy]
  · rw [open_door_eq_of_resolved cs af _ b hres]
    simp [openDoorSteps, hv]
  · rw [open_door_eq_of_resolved cs af _ _ hres]
    simp [openDoorSteps, hv, hw]

/-- Witness for C10: account without sip makes the run raise; response "0"
at either step makes the run return False. -/
theorem open_door_sip_error_vs_failure_witness :
    (Account.mk none none).sip = none ∧
    sipResolved (some "7") (Except.ok ⟨none, none⟩) ∧
    open_door none (Except.ok ⟨none, none⟩) (Except.ok (RespVal.str "1"))
        (Except.ok (RespVal.str "1")) =
      ⟨false, false, Except.error (ApiErr.api "User SIP number not available")⟩ ∧
    open_door (some "7") (Except.ok ⟨none, none⟩) (Except.ok (RespVal.str "0"))
        (Except.ok (RespVal.str "1")) = ⟨true, false, Except.ok false⟩ :=
  ⟨rfl, Or.inl (by decide),
    (open_door_sip_error_vs_failure ⟨none, none⟩ (Except.ok (RespVal.str "1"))
        (Except.ok (RespVal.str "1")) (some "7") (Except.ok ⟨none, none⟩)
        (RespVal.str "0") RespVal.other rfl (Or.inl (by decide))).1,
    (open_door_sip_error_vs_failure ⟨none, none⟩ (Except.ok (RespVal.str "1"))
        (Except.ok (RespVal.str "1")) (some "7") (Except.ok ⟨none, none⟩)
        (RespVal.str "0") RespVal.other rfl (Or.inl (by decide))).2.1
      (by decide)⟩

/-- C3: if any of the three fetches raises the API error kind the refresh
is reported failed and the cached snapshot is unchanged; only a refresh in
which all three fetches succeed replaces the snapshot, and then wholesale
with exactly the three fetched values. -/
theorem refresh_atomic (st : CoordState) (f : FetchResults) :
    ((apiFailed f.locations = true ∨ apiFailed f.call_records = true ∨
        apiFailed f.account = true) →
      (refreshStep st f).2 = false ∧ (refreshStep st f).1.data = st.data) ∧
    (∀ locs calls acc, f.locations = Except.ok locs →
      f.call_records = Except.ok calls → f.account = Except.ok acc →
      (refreshStep st f).2 = true ∧
      (refreshStep st f).1.data = some ⟨locs, calls, acc⟩) := by
  obtain ⟨fl, fc, fa⟩ := f
  constructor
  · intro h
    cases fl with
    | error e => simp [refreshStep]
    | ok locs =>
        cases fc with
        | error e => simp [refreshStep]
        | ok calls =>
            cases fa with
            | error e => simp [refreshStep]
            | ok acc => simp [apiFailed] at h
  · intro locs calls acc h1 h2 h3
    simp only at h1 h2 h3
    subst h1; subst h2; subst h3
    simp [refreshStep]

/-- Witness for C3: a run whose account fetch fails keeps the snapshot and
reports failure; a run whose three fetches succeed installs the new
snapshot and reports success. -/
theorem refresh_atomic_witness :
    apiFailed ((Except.error (ApiErr.api "x")) : Except ApiErr Account) = true ∧
    ((refreshStep ⟨some ⟨[], [], ⟨none, none⟩⟩, ∅⟩
        ⟨Except.ok [⟨some "L1", none⟩], Except.ok [],
          Except.error (ApiErr.api "x")⟩).2 = false ∧
      (refreshStep ⟨some ⟨[], [], ⟨none, none⟩⟩, ∅⟩
        ⟨Except.ok [⟨some "L1", none⟩], Except.ok [],
          Except.error (ApiErr.api "x")⟩).1.data =
        some ⟨[], [], ⟨none, none⟩⟩) ∧
    ((refreshStep ⟨some ⟨[], [], ⟨none, none⟩⟩, ∅⟩
        ⟨Except.ok [⟨some "L1", none⟩], Except.ok [],
          Except.ok ⟨some "5", none⟩⟩).2 = true ∧
      (refreshStep ⟨some ⟨[], [], ⟨none, none⟩⟩, ∅⟩
        ⟨Except.ok [⟨some "L1", none⟩], Except.ok [],
          Except.ok ⟨some "5", none⟩⟩).1.data =
        some ⟨[⟨some "L1", none⟩], [], ⟨some "5", none⟩⟩) :=
  ⟨rfl,
    (refresh_atomic ⟨some ⟨[], [], ⟨none, none⟩⟩, ∅⟩
        ⟨Except.ok [⟨some "L1", none⟩], Except.ok [],
          Except.error (ApiErr.api "x")⟩).1 (Or.inr (Or.inr rfl)),
    (refresh_atomic ⟨some ⟨[], [], ⟨none, none⟩⟩, ∅⟩
        ⟨Except.ok [⟨some "L1", none⟩], Except.ok [],
          Except.ok ⟨some "5", none⟩⟩).2 [⟨some "L1", none⟩] []
      ⟨some "5", none⟩ rfl rfl rfl⟩

/-- A record passing `dateOk` has `dateKey` equal to `ok` of its total
date value. -/
theorem dateKey_eq_of_ok (c : CallRecord) (h : dateOk c = true) :
    dateKey c = Except.ok (dateD c) := by
  unfold dateOk at h
  unfold dateD
  cases hk : dateKey c with
  | error e => simp [hk] at h
  | ok n => simp [hk]

/-- Under a filter value that is `none` or a non-empty string, the Python
truthiness test in `callToMatches` agrees with the specification's
"when one is given" reading. -/
theorem callToMatches_eq (ct : Option String) (c : CallRecord)
    (hct : ct = none ∨ ∃ s, ct = some s ∧ s ≠ "") :
    callToMatches ct c = specCallTo ct c := by
  rcases hct with h | ⟨s, h, hs⟩ <;> subst h
  · rfl
  · simp [callToMatches, specCallTo, strTruthy, hs]

/-- Loop of `get_recent_calls` computes the specification filter when all
dates parse. -/
theorem recentFilter_spec (l : List CallRecord) (cutoff : Int)
    (ct : Option String) (hct : ct = none ∨ ∃ s, ct = some s ∧ s ≠ "")
    (hd : l.all dateOk = true) :
    recentFilter l cutoff ct =
      Except.ok (l.filter (specRecentPred ct cutoff)) := by
  induction l with
  | nil => rfl
  | cons c rest ih =>
      rw [List.all_cons, Bool.and_eq_true] at hd
      obtain ⟨hc, hrest⟩ := hd
      simp only [recentFilter, dateKey_eq_of_ok c hc]
      by_cases h1 : dateD c < cutoff
      · rw [if_pos h1, ih hrest]
        have hp : specRecentPred ct cutoff c = false := by
          unfold specRecentPred
          simp [show ¬ cutoff ≤ dateD c from by omega]
        simp [List.filter_cons, hp]
      · rw [if_neg h1]
        have hle : cutoff ≤ dateD c := by omega
        by_cases h2 : callToMatches ct c = true
        · rw [if_pos h2, ih hrest]
          have hp : specRecentPred ct cutoff c = true := by
            unfold specRecentPred
            rw [callToMatches_eq ct c hct] at h2
            simp [hle, h2]
          simp [Except.map, List.filter_cons, hp]
        · rw [if_neg h2, ih hrest]
          have hp : specRecentPred ct cutoff c = false := by
            unfold specRecentPred
            rw [callToMatches_eq ct c hct] at h2
            simp [hle, h2]
          simp [List.filter_cons, hp]

/-- C4: with a `call_to` filter that is absent or a non-empty string and
all cached dates parsing, `get_recent_calls` returns exactly the cached
records dated at or after `now_ms - minutes * 60000`, restricted by
`call_to` when given; an empty cache gives the empty list (the `none`
case of `recordsOf`). -/
theorem get_recent_calls_spec (data : Option Snapshot) (now_ms : Int)
    (ct : Option String) (m : Int)
    (hct : ct = none ∨ ∃ s, ct = some s ∧ s ≠ "")
    (hd : (recordsOf data).all dateOk = true) :
    get_recent_calls data now_ms ct m =
      Except.ok ((recordsOf data).filter
        (specRecentPred ct (now_ms - m * 60 * 1000))) := by
  cases data with
  | none => rfl
  | some snap => exact recentFilter_spec snap.call_records _ ct hct hd

/-- Witness for C4 at the spec scenario: the call dated 1000 is excluded
when the current time is 62000 ms and the window is one minute. -/
theorem get_recent_calls_spec_witness :
    ((recordsOf (some ⟨[], [⟨some "a", none, some "101", some "Missed",
        some "1000", some "L1", none⟩], ⟨none, none⟩⟩)).all dateOk = true) ∧
    get_recent_calls (some ⟨[], [⟨some "a", none, some "101", some "Missed",
        some "1000", some "L1", none⟩], ⟨none, none⟩⟩) 62000 none 1 =
      Except.ok [] :=
  ⟨by decide,
    (get_recent_calls_spec (some ⟨[], [⟨some "a", none, some "101",
        some "Missed", some "1000", some "L1", none⟩], ⟨none, none⟩⟩)
      62000 none 1 (Or.inl rfl) (by decide)).trans (by rfl)⟩

/-- Loop of `get_today_call_count` computes the specification count when
all dates parse. -/
theorem countFrom_spec (l : List CallRecord) (m : Int)
    (hd : l.all dateOk = true) :
    countFrom l m =
      Except.ok ((l.filter (fun c => decide (m ≤ dateD c))).length) := by
  induction l with
  | nil => rfl
  | cons c rest ih =>
      rw [List.all_cons, Bool.and_eq_true] at hd
      obtain ⟨hc, hrest⟩ := hd
      simp only [countFrom, dateKey_eq_of_ok c hc]
      rw [ih hrest]
      by_cases h1 : m ≤ dateD c
      · simp [Except.map, List.filter_cons, h1, ge_iff_le]
      · simp [Except.map, List.filter_cons, h1, ge_iff_le]

/-- Overwriting the call_state leaves the date coercion unchanged, so the
count loop ignores call states. -/
theorem countFrom_scrub (l : List CallRecord) (st : Option String) (m : Int) :
    countFrom (l.map (setCallState st)) m = countFrom l m := by
  induction l with
  | nil => rfl
  | cons c rest ih =>
      have hdk : dateKey (setCallState st c) = dateKey c := rfl
      simp only [List.map_cons, countFrom, hdk, ih]

/-- C8: when all cached dates parse, `get_today_call_count` returns exactly
the number of cached records dated at or after local midnight, and the
count is unchanged by rewriting every record's call state (no filtering on
call state). -/
theorem get_today_call_count_spec (data : Option Snapshot) (mid : Int)
    (hd : (recordsOf data).all dateOk = true) :
    get_today_call_count data mid =
      Except.ok ((recordsOf data).filter
        (fun c => decide (mid ≤ dateD c))).length ∧
    (∀ st, get_today_call_count (scrubStates st data) mid =
      get_today_call_count data mid) := by
  constructor
  · cases data with
    | none => rfl
    | some snap => exact countFrom_spec snap.call_records mid hd
  · intro st
    cases data with
    | none => rfl
    | some snap => exact countFrom_scrub snap.call_records st mid

/-- Witness for C8: of two records dated 1000 (Missed) and 100 (Outgoing),
only the one at or after midnight 500 is counted, whatever the states. -/
theorem get_today_call_count_spec_witness :
    ((recordsOf (some ⟨[], [⟨some "a", none, none, some "Missed", some "1000",
        some "L1", none⟩, ⟨some "b", none, none, some "Outgoing", some "100",
        some "L1", none⟩], ⟨none, none⟩⟩)).all dateOk = true) ∧
    get_today_call_count (some ⟨[], [⟨some "a", none, none, some "Missed",
        some "1000", some "L1", none⟩, ⟨some "b", none, none, some "Outgoing",
        some "100", some "L1", none⟩], ⟨none, none⟩⟩) 500 = Except.ok 1 ∧
    get_today_call_count (scrubStates (some "Other")
        (some ⟨[], [⟨some "a", none, none, some "Missed", some "1000",
          some "L1", none⟩, ⟨some "b", none, none, some "Outgoing", some "100",
          some "L1", none⟩], ⟨none, none⟩⟩)) 500 =
      get_today_call_count (some ⟨[], [⟨some "a", none, none, some "Missed",
        some "1000", some "L1", none⟩, ⟨some "b", none, none, some "Outgoing",
        some "100", some "L1", none⟩], ⟨none, none⟩⟩) 500 :=
  ⟨by decide,
    ((get_today_call_count_spec (some ⟨[], [⟨some "a", none, none,
        some "Missed", some "1000", some "L1", none⟩, ⟨some "b", none, none,
        some "Outgoing", some "100", some "L1", none⟩], ⟨none, none⟩⟩) 500
      (by decide)).1).trans (by rfl),
    (get_today_call_count_spec (some ⟨[], [⟨some "a", none, none,
        some "Missed", some "1000", some "L1", none⟩, ⟨some "b", none, none,
        some "Outgoing", some "100", some "L1", none⟩], ⟨none, none⟩⟩) 500
      (by decide)).2 (some "Other")⟩

/-- C6 evidence: a call record whose date string does not parse as an
integer makes both helper queries raise ValueError (from the `int(...)`
coercion) instead of treating the date as 0. -/
theorem unparsable_date_raises :
    get_recent_calls (some ⟨[], [⟨some "x", none, none, some "Missed",
        some "abc", some "L1", none⟩], ⟨none, none⟩⟩) 62000 none 1 =
      Except.error PyErr.valueError ∧
    get_today_call_count (some ⟨[], [⟨some "x", none, none, some "Missed",
        some "abc", some "L1", none⟩], ⟨none, none⟩⟩) 0 =
      Except.error PyErr.valueError := by
  constructor <;> rfl

/-- The seen set only grows across one call of the event detector. -/
theorem detect_mono (l : List CallRecord) (seen : Finset (Option String)) :
    seen ⊆ (detectDoorbellEvents l seen).1 := by
  induction l generalizing seen with
  | nil => simp [detectDoorbellEvents]
  | cons c rest ih =>
      by_cases h1 : c.call_state = some "Missed"
      · by_cases h2 : c.call_id ∈ seen
        · simpa [detectDoorbellEvents, h1, h2] using ih seen
        · simp only [detectDoorbellEvents, h1, h2, if_true, if_false,
            if_pos, if_neg, not_false_iff]
          exact subset_trans (Finset.subset_insert _ _)
            (by simpa [h2] using ih (insert c.call_id seen))
      · simpa [detectDoorbellEvents, h1] using ih seen

/-- One detector call fires the event for id `i` exactly once when `i` is
newly recorded in the seen set, and never otherwise. -/
theorem detect_count (l : List CallRecord) (seen : Finset (Option String))
    (i : Option String) :
    ((detectDoorbellEvents l seen).2.map EventData.call_id).count i =
      (if i ∈ (detectDoorbellEvents l seen).1 ∧ i ∉ seen then 1 else 0) := by
  induction l generalizing seen with
  | nil => simp [detectDoorbellEvents]
  | cons c rest ih =>
      by_cases h1 : c.call_state = some "Missed"
      · by_cases h2 : c.call_id ∈ seen
        · simpa [detectDoorbellEvents, h1, h2] using ih seen
        · simp only [detectDoorbellEvents, h1, h2, if_true, if_neg,
            not_false_iff, List.map_cons, List.count_cons]
          rw [ih (insert c.call_id seen)]
          by_cases hic : i = c.call_id
          · subst hic
            have hin : c.call_id ∈
                (detectDoorbellEvents rest (insert c.call_id seen)).1 :=
              detect_mono rest _ (Finset.mem_insert_self c.call_id seen)
            simp [mkEventData, hin, h2, Finset.mem_insert_self]
          · simp [mkEventData, hic, Finset.mem_insert, Ne.symm hic]
      · simpa [detectDoorbellEvents, h1] using ih seen

/-- The seen set only grows across a sequence of refreshes. -/
theorem run_mono (runs : List (List CallRecord))
    (seen : Finset (Option String)) : seen ⊆ (runRefreshes runs seen).1 := by
  induction runs generalizing seen with
  | nil => simp [runRefreshes]
  | cons r rest ih =>
      exact subset_trans (detect_mono r seen)
        (by simpa [runRefreshes] using ih (detectDoorbellEvents r seen).1)

/-- Across a sequence of refreshes, the event for id `i` fires exactly once
when `i` is newly recorded, and never otherwise. -/
theorem run_count (runs : List (List CallRecord))
    (seen : Finset (Option String)) (i : Option String) :
    ((runRefreshes runs seen).2.map EventData.call_id).count i =
      (if i ∈ (runRefreshes runs seen).1 ∧ i ∉ seen then 1 else 0) := by
  induction runs generalizing seen with
  | nil => simp [runRefreshes]
  | cons r rest ih =>
      simp only [runRefreshes, List.map_append, List.count_append]
      rw [detect_count, ih]
      have hsub0 : seen ⊆ (detectDoorbellEvents r seen).1 := detect_mono r seen
      have hsub : (detectDoorbellEvents r seen).1 ⊆
          (runRefreshes rest (detectDoorbellEvents r seen).1).1 :=
        run_mono rest _
      by_cases h0 : i ∈ seen
      · simp [h0, hsub0 h0, hsub (hsub0 h0)]
      · by_cases h1 : i ∈ (detectDoorbellEvents r seen).1
        · simp [h0, h1, hsub h1]
        · simp [h0, h1]

/-- C2: over any sequence of refreshes of one coordinator instance, the
seen set only grows, the doorbell event for any given call id fires at
most once, and an id already recorded in the seen set never fires again. -/
theorem doorbell_event_at_most_once (runs : List (List CallRecord))
    (seen : Finset (Option String)) (i : Option String) :
    seen ⊆ (runRefreshes runs seen).1 ∧
    ((runRefreshes runs seen).2.map EventData.call_id).count i ≤ 1 ∧
    (i ∈ seen →
      ((runRefreshes runs seen).2.map EventData.call_id).count i = 0) := by
  refine ⟨run_mono runs seen, ?_, fun h => ?_⟩
  · rw [run_count]
    split <;> omega
  · rw [run_count]
    simp [h]

/-- Witness for C2: the same Missed call delivered in two consecutive
refreshes fires at most one event, and fires none when its id is already
in the seen set. -/
theorem doorbell_event_at_most_once_witness :
    (∅ : Finset (Option String)) ⊆
      (runRefreshes [[⟨some "a", none, none, some "Missed", some "1000",
        some "L1", none⟩], [⟨some "a", none, none, some "Missed", some "1000",
        some "L1", none⟩]] ∅).1 ∧
    ((runRefreshes [[⟨some "a", none, none, some "Missed", some "1000",
        some "L1", none⟩], [⟨some "a", none, none, some "Missed", some "1000",
        some "L1", none⟩]] ∅).2.map EventData.call_id).count (some "a") ≤ 1 ∧
    some "a" ∈ ({some "a"} : Finset (Option String)) ∧
    ((runRefreshes [[⟨some "a", none, none, some "Missed", some "1000",
        some "L1", none⟩]] {some "a"}).2.map EventData.call_id).count
      (some "a") = 0 :=
  ⟨(doorbell_event_at_most_once [[⟨some "a", none, none, some "Missed",
      some "1000", some "L1", none⟩], [⟨some "a", none, none, some "Missed",
      some "1000", some "L1", none⟩]] ∅ (some "a")).1,
   (doorbell_event_at_most_once [[⟨some "a", none, none, some "Missed",
      some "1000", some "L1", none⟩], [⟨some "a", none, none, some "Missed",
      some "1000", some "L1", none⟩]] ∅ (some "a")).2.1,
   Finset.mem_singleton_self _,
   (doorbell_event_at_most_once [[⟨some "a", none, none, some "Missed",
      some "1000", some "L1", none⟩]] {some "a"} (some "a")).2.2
     (Finset.mem_singleton_self _)⟩

/-- C5 counterexample: a concrete lock unlock run performs only the
two-step open_door and never invokes ask_current_call, so the claim that
every unlock action first calls ask_current_call is false. -/
theorem unlock_no_ask_counterexample :
    (async_unlock [] "L1" 1000000 (Except.ok true) (Except.ok true)).calls =
      [ApiCall.openDoor] ∧
    ApiCall.askCurrentCall ∉
      (async_unlock [] "L1" 1000000 (Except.ok true) (Except.ok true)).calls := by
  constructor
  · rfl
  · decide

/-- C5 (amended): the button press first calls ask_current_call, attempts
open_door_with_call with the active call's id when one exists, and falls
back to the two-step open_door when there is no active call or
open_door_with_call reports failure; the lock unlock never calls
ask_current_call — it instead scans the cached records for a call at its
location within the last five minutes, attempts open_door_with_call with
that call's id when one with a truthy id is found, and otherwise, or on
open_door_with_call failure, falls back to open_door. -/
theorem press_and_unlock_fallback :
    (∀ active odwc od,
      (async_press active odwc od).calls.head? = some ApiCall.askCurrentCall) ∧
    (∀ d odwc od, (async_press (some d) odwc od).calls.take 2 =
      [ApiCall.askCurrentCall, ApiCall.openDoorWithCall d.call_id]) ∧
    (∀ d od, async_press (some d) (Except.ok true) od =
      ⟨[ApiCall.askCurrentCall, ApiCall.openDoorWithCall d.call_id],
        some "controlCurrentCall"⟩) ∧
    (∀ d od, (async_press (some d) (Except.ok false) od).calls =
      [ApiCall.askCurrentCall, ApiCall.openDoorWithCall d.call_id,
        ApiCall.openDoor]) ∧
    (∀ odwc od, (async_press none odwc od).calls =
      [ApiCall.askCurrentCall, ApiCall.openDoor]) ∧
    (∀ records loc now odwc od, ApiCall.askCurrentCall ∉
      (async_unlock records loc now odwc od).calls) ∧
    (∀ records loc now r odwc od,
      findRecentCallId records loc (now - 5 * 60 * 1000) = Except.ok r →
      strTruthy r.join = true →
      (async_unlock records loc now odwc od).calls.head? =
        some (ApiCall.openDoorWithCall r.join)) ∧
    (∀ records loc now r od,
      findRecentCallId records loc (now - 5 * 60 * 1000) = Except.ok r →
      strTruthy r.join = true →
      (async_unlock records loc now (Except.ok false) od).calls =
        [ApiCall.openDoorWithCall r.join, ApiCall.openDoor]) ∧
    (∀ records loc now r odwc od,
      findRecentCallId records loc (now - 5 * 60 * 1000) = Except.ok r →
      strTruthy r.join = false →
      (async_unlock records loc now odwc od).calls = [ApiCall.openDoor]) := by
  refine ⟨?_, ?_, ?_, ?_, ?_, ?_, ?_, ?_, ?_⟩
  · intro active odwc od
    cases active with
    | none => cases od with
      | error e => rfl
      | ok b => cases b <;> rfl
    | some d => cases odwc with
      | error e => rfl
      | ok b => cases b with
        | true => rfl
        | false => cases od with
          | error e => rfl
          | ok b2 => cases b2 <;> rfl
  · intro d odwc od
    cases odwc with
    | error e => rfl
    | ok b => cases b with
      | true => rfl
      | false => cases od with
        | error e => rfl
        | ok b2 => cases b2 <;> rfl
  · intro d od; rfl
  · intro d od
    cases od with
    | error e => rfl
    | ok b => cases b <;> rfl
  · intro odwc od
    cases od with
    | error e => rfl
    | ok b => cases b <;> rfl
  · intro records loc now odwc od
    unfold async_unlock
    cases findRecentCallId records loc (now - 5 * 60 * 1000) with
    | error e => simp
    | ok r =>
        simp only
        by_cases hr : strTruthy r.join = true
        · simp only [hr, if_true]
          cases odwc with
          | error e => simp
          | ok b => cases b with
            | true => simp
            | false => cases od with
              | error e => simp [afterOpenDoor]
              | ok b2 => cases b2 <;> simp [afterOpenDoor]
        · rw [if_neg hr]
          cases od with
          | error e => simp [afterOpenDoor]
          | ok b2 => cases b2 <;> simp [afterOpenDoor]
  · intro records loc now r odwc od hf hr
    unfold async_unlock
    rw [hf]
    simp only [hr, if_true]
    cases odwc with
    | error e => rfl
    | ok b => cases b with
      | true => rfl
      | false => cases od with
        | error e => rfl
        | ok b2 => cases b2 <;> rfl
  · intro records loc now r od hf hr
    unfold async_unlock
    rw [hf]
    simp only [hr, if_true]
    cases od with
    | error e => rfl
    | ok b2 => cases b2 <;> rfl
  · intro records loc now r odwc od hf hr
    unfold async_unlock
    rw [hf]
    simp only [hr, if_false, Bool.false_eq_true]
    cases od with
    | error e => rfl
    | ok b2 => cases b2 <;> rfl

/-- Witness for C5: a cached Missed call dated within five minutes makes
the lock try open_door_with_call first and, on its failure, fall back to
open_door — with no ask_current_call involved. -/
theorem press_and_unlock_fallback_witness :
    findRecentCallId [⟨some "c1", none, none, some "Missed", some "999999",
        some "L1", none⟩] "L1" ((1000000 : Int) - 5 * 60 * 1000) =
      Except.ok (some (some "c1")) ∧
    strTruthy (Option.join (some (some "c1"))) = true ∧
    (async_unlock [⟨some "c1", none, none, some "Missed", some "999999",
        some "L1", none⟩] "L1" 1000000 (Except.ok false)
      (Except.ok true)).calls =
      [ApiCall.openDoorWithCall (Option.join (some (some "c1"))),
        ApiCall.openDoor] :=
  ⟨rfl, rfl,
    press_and_unlock_fallback.2.2.2.2.2.2.2.1
      [⟨some "c1", none, none, some "Missed", some "999999", some "L1", none⟩]
      "L1" 1000000 (some (some "c1")) (Except.ok true) rfl rfl⟩
